import Mathlib

/-!
Formal model of the backup/restore orchestration engine implemented by
`linux/ubuntu/_scripts/unified_backup.py` and
`linux/ubuntu/_scripts/unified_restore_to_home.py`.

External `restic` child processes are modelled by oracles: `op k` gives the
outcome of the k-th invocation a loop performs, and JSON parsing is an
oracle `String → Option (List Snapshot)` (with `none` for a parse error).
Everything else (retry policy, error classification, snapshot selection,
status bookkeeping, final classification) is translated directly from the
Python sources; line numbers in the doc comments refer to those files.
-/

namespace Orchestration

/-- Error raised by a failed external restic invocation
(`subprocess.CalledProcessError`): `stderr` is the captured standard error
(empty when absent) and `strRepr` is the text of Python's `str(e)`. -/
structure ResticError where
  stderr : String
  strRepr : String
deriving DecidableEq

/-- Combined error text used for classification:
`err_msg = e.stderr or str(e)` (unified_restore_to_home.py line 280); an
absent/empty `stderr` is falsy, so `str(e)` is used instead. -/
def errMsg (e : ResticError) : String :=
  if e.stderr = "" then e.strRepr else e.stderr

/-- Boolean test that the first character list is a leading segment of the
second. -/
def leadMatch : List Char → List Char → Bool
  | [], _ => true
  | _ :: _, [] => false
  | a :: as, b :: bs => a == b && leadMatch as bs

/-- Boolean test that `sub` occurs contiguously inside the second list. -/
def occursIn (sub : List Char) : List Char → Bool
  | [] => leadMatch sub []
  | c :: rest => leadMatch sub (c :: rest) || occursIn sub rest

/-- Substring containment on strings: Python's `sub in s`. -/
def subOccurs (sub s : String) : Bool := occursIn sub.data s.data

/-- Python's `str.lower`, character by character. -/
def lowerString (s : String) : String := String.mk (s.data.map Char.toLower)

/-- Lexicographic comparison of character lists by code point: CPython's
`<` on strings. -/
def charsLt : List Char → List Char → Bool
  | [], [] => false
  | [], _ :: _ => true
  | _ :: _, [] => false
  | a :: as, b :: bs =>
    if a.toNat < b.toNat then true
    else if b.toNat < a.toNat then false
    else charsLt as bs

/-- Python's `s < t` on strings. -/
def strLt (a b : String) : Bool := charsLt a.data b.data

/-- Transient-error markers tested against the lowercased error text
(unified_restore_to_home.py lines 281-294). -/
def TRANSIENT_TERMS : List String :=
  ["connection reset by peer", "unexpected eof", "timeout",
   "connection refused", "network error", "429 too many requests",
   "500 internal server error", "503 service unavailable",
   "temporarily unavailable"]

/-- Transient classification: some marker occurs in the lowercased error
text (case-insensitive substring match). -/
def isTransient (msg : String) : Bool :=
  TRANSIENT_TERMS.any (fun term => subOccurs term (lowerString msg))

/-- `MAX_RETRIES` (unified_restore_to_home.py line 60). -/
def MAX_RETRIES : Nat := 3

/-- `RETRY_DELAY_BASE`, seconds (unified_restore_to_home.py line 61). -/
def RETRY_DELAY_BASE : Nat := 5

/-- Outcome of one invocation of the external restic child process:
normal exit with captured stdout, or a `CalledProcessError`. -/
inductive AttemptResult where
  | ok (stdout : String)
  | err (e : ResticError)
deriving DecidableEq

/-- Result of `run_restic` as a whole: `ok` is a normal return carrying the
final stdout, `okInit` is the `return None` taken when an init invocation
fails with an "already initialized" message (lines 295-297), and `raised`
is the re-raised `CalledProcessError`. -/
inductive RunResult where
  | ok (stdout : String)
  | okInit
  | raised (e : ResticError)
deriving DecidableEq

/-- Observable side effects of `run_restic`: child-process invocations and
backoff sleeps (`time.sleep(delay)`, in seconds). -/
inductive Event where
  | invoke
  | sleep (d : Nat)
deriving DecidableEq

/-- Retry loop of `run_restic` (unified_restore_to_home.py lines 261-311).
`op k` is the outcome of the k-th child-process invocation (0-indexed; the
command, environment and `check`/`capture_output` flags are fixed for the
whole loop), and `isInit` is `"init" in args`.  The loop state `retries`
starts at 0 and is incremented once per retry, so invocation k runs with
`retries = k`.  `fuel` is a structural-termination device only: the retry
branch is guarded by `retries < max_retries` exactly as in the source,
`run_restic` passes `fuel = max_retries`, and every recursive call keeps
`fuel = max_retries - retries`, so the fuel-exhausted fallback is never
reached (the Python `while retries <= max_retries` loop terminates for the
same reason). -/
def run_restic_loop (isInit : Bool) (op : Nat → AttemptResult) (max_retries : Nat) :
    Nat → Nat → RunResult × List Event
  | retries, fuel =>
    match op retries with
    | AttemptResult.ok s => (RunResult.ok s, [Event.invoke])
    | AttemptResult.err e =>
      if isInit && subOccurs "already initialized" (errMsg e) then
        (RunResult.okInit, [Event.invoke])
      else if isTransient (errMsg e) = true ∧ retries < max_retries then
        match fuel with
        | 0 => (RunResult.raised e, [Event.invoke])
        | fuel' + 1 =>
          let rest := run_restic_loop isInit op max_retries (retries + 1) fuel'
          (rest.1,
           Event.invoke :: Event.sleep (RETRY_DELAY_BASE * 2 ^ (retries + 1 - 1)) :: rest.2)
      else (RunResult.raised e, [Event.invoke])

/-- `run_restic(repo, password, *args, check=True, ...)` of the restore
script: the retry loop entered with `retries = 0`, paired with its trace of
observable events. -/
def run_restic (isInit : Bool) (op : Nat → AttemptResult) (max_retries : Nat) :
    RunResult × List Event :=
  run_restic_loop isInit op max_retries 0 max_retries

/-- Number of child-process invocations recorded in a trace. -/
def invokeCount : List Event → Nat
  | [] => 0
  | Event.invoke :: rest => invokeCount rest + 1
  | Event.sleep _ :: rest => invokeCount rest

/-- Sleep durations recorded in a trace, in order. -/
def sleepValues : List Event → List Nat
  | [] => []
  | Event.invoke :: rest => sleepValues rest
  | Event.sleep d :: rest => d :: sleepValues rest

/-- Trace of a run that performs `r` retries after reaching loop state `k`:
an invocation, then alternating backoff sleeps and invocations, ending with
an invocation. -/
def traceFrom : Nat → Nat → List Event
  | _, 0 => [Event.invoke]
  | k, r + 1 =>
    Event.invoke :: Event.sleep (RETRY_DELAY_BASE * 2 ^ k) :: traceFrom (k + 1) r

/-- Snapshot record parsed from `restic snapshots --json`; a missing
`short_id` is modelled as the empty string (Python's `.get("short_id")`
yields a falsy value) and a missing `time` as the empty string
(`s.get("time", "")`). -/
structure Snapshot where
  short_id : String
  id : String
  time : String
deriving DecidableEq

/-- `latest.get("short_id") or latest.get("id", "")`
(unified_restore_to_home.py line 364). -/
def snapshotDisplayId (s : Snapshot) : String :=
  if s.short_id = "" then s.id else s.short_id

/-- Head of `sorted(snapshots, key=lambda s: s.get("time", ""), reverse=True)`
(line 363): Python's sort is stable, so with `reverse=True` the head is the
first-listed snapshot whose `time` is maximal; the left fold keeps the
current candidate unless a strictly later time appears, which selects
exactly that snapshot. -/
def selectLatest (s : Snapshot) (rest : List Snapshot) : Snapshot :=
  rest.foldl (fun acc t => if strLt acc.time t.time then t else acc) s

/-- `get_latest_snapshot_id` (lines 351-369).  The listing command is
`snapshots --json` (no `init` in args), `snapOp` gives the outcomes of its
invocations and `parseJson` models `json.loads` on the captured stdout
(`none` for a parse error).  A raised error or a parse error is caught by
the `except Exception` handler and yields `""`; an empty stdout or `None`
result yields an empty snapshot list and hence `""`. -/
def get_latest_snapshot_id (snapOp : Nat → AttemptResult)
    (parseJson : String → Option (List Snapshot)) : String :=
  match (run_restic false snapOp MAX_RETRIES).1 with
  | RunResult.raised _ => ""
  | RunResult.okInit => ""
  | RunResult.ok out =>
    match (if out = "" then some [] else parseJson out) with
    | none => ""
    | some [] => ""
    | some (s :: rest) => snapshotDisplayId (selectLatest s rest)

/-- Task states of `RESTORE_STATUS` (lines 64-68). -/
inductive TState where
  | pending
  | in_progress
  | success
  | failed
deriving DecidableEq

/-- One value of the `RESTORE_STATUS` map: a state and a message. -/
structure TaskStatus where
  status : TState
  message : String
deriving DecidableEq

/-- Position of a state along pending → in_progress → {success, failed}. -/
def stateRank : TState → Nat
  | TState.pending => 0
  | TState.in_progress => 1
  | TState.success => 2
  | TState.failed => 2

/-- Environment behavior observed by one `restore_repo` task: outcomes of
the snapshot-listing invocations, the JSON parser, outcomes of the restore
invocations, and the formatted elapsed-seconds text of the status message. -/
structure RestoreOracle where
  snapOp : Nat → AttemptResult
  parseJson : String → Option (List Snapshot)
  restoreOp : Nat → AttemptResult
  elapsed : String

/-- `restore_repo` (lines 375-412): the returned bool paired with the
sequence of writes to `RESTORE_STATUS[task_name]`, in order.  The function
first writes in_progress, resolves the snapshot (failing the task with a
"No snapshots found" message when the resolver returns `""`), then runs
`restic restore` and writes success, or failed with the captured stderr
(`e.stderr or "Unknown error"`). -/
def restore_repo (repo : String) (o : RestoreOracle) : Bool × List TaskStatus :=
  if get_latest_snapshot_id o.snapOp o.parseJson = "" then
    (false,
     [⟨TState.in_progress, "Restore in progress..."⟩,
      ⟨TState.failed, "No snapshots found for repository \x27" ++ repo ++ "\x27."⟩])
  else
    match (run_restic false o.restoreOp MAX_RETRIES).1 with
    | RunResult.raised e =>
        (false,
         [⟨TState.in_progress, "Restore in progress..."⟩,
          ⟨TState.failed, "Restore failed after " ++ o.elapsed ++ " seconds: " ++
            (if e.stderr = "" then "Unknown error" else e.stderr)⟩])
    | _ =>
        (true,
         [⟨TState.in_progress, "Restore in progress..."⟩,
          ⟨TState.success, "Restore completed in " ++ o.elapsed ++ " seconds."⟩])

/-- Final state of one task after its `restore_repo` call: the last write,
starting from the initial pending entry of `RESTORE_STATUS`. -/
def taskFinal (repo : String) (o : RestoreOracle) : TState :=
  ((restore_repo repo o).2.getLastD ⟨TState.pending, ""⟩).status

/-- `B2_BUCKET` (unified_restore_to_home.py line 45). -/
def B2_BUCKET : String := "sawyer-backups"

/-- Repository strings (lines 50-52); the hostname comes from the machine. -/
def B2_REPO_SYSTEM (hostname : String) : String :=
  "b2:" ++ B2_BUCKET ++ ":" ++ hostname ++ "/ubuntu-system-backup"

/-- Repository string of the VM backup (line 51). -/
def B2_REPO_VM (hostname : String) : String :=
  "b2:" ++ B2_BUCKET ++ ":" ++ hostname ++ "/vm-backups"

/-- Repository string of the Plex backup (line 52). -/
def B2_REPO_PLEX (hostname : String) : String :=
  "b2:" ++ B2_BUCKET ++ ":" ++ hostname ++ "/plex-media-server-backup"

/-- Oracles for the three tasks of one run. -/
structure RunOracle where
  system : RestoreOracle
  vm : RestoreOracle
  plex : RestoreOracle

/-- Per-task status-write traces of one full run of `main`
(unified_restore_to_home.py lines 488-502): three `restore_repo` calls in
declaration order, none of which can raise. -/
def runRestore (hostname : String) (o : RunOracle) : List (String × List TaskStatus) :=
  [("system", (restore_repo (B2_REPO_SYSTEM hostname) o.system).2),
   ("vm", (restore_repo (B2_REPO_VM hostname) o.vm).2),
   ("plex", (restore_repo (B2_REPO_PLEX hostname) o.plex).2)]

/-- Final `RESTORE_STATUS` map when `print_status_report` runs at the end of
`main` (line 504): per task, the last write (the initial value, line 64-68,
is pending with an empty message). -/
def finalReport (hostname : String) (o : RunOracle) : List (String × TaskStatus) :=
  (runRestore hostname o).map (fun p => (p.1, p.2.getLastD ⟨TState.pending, ""⟩))

/-- Final task states of one run, in report order. -/
def finalStates (hostname : String) (o : RunOracle) : List TState :=
  (finalReport hostname o).map (fun p => p.2.status)

/-- Final run classification (lines 507-515): counts over the final
`RESTORE_STATUS` values. -/
def classify (states : List TState) : String :=
  let success_count := (states.filter (fun s => s == TState.success)).length
  let failed_count := (states.filter (fun s => s == TState.failed)).length
  if failed_count == 0 then "SUCCESS"
  else if 0 < success_count then "PARTIAL SUCCESS"
  else "FAILED"

/-- Summary word of the completion banner (line 518). -/
def summary (hostname : String) (o : RunOracle) : String :=
  classify (finalStates hostname o)

/-- Kinds of restic commands issued by `force_unlock_repo`. -/
inductive Cmd where
  | snapshots
  | unlock
deriving DecidableEq

/-- Tag every event of a trace with the command that produced it. -/
def tagCmd (c : Cmd) (t : List Event) : List (Cmd × Event) :=
  t.map (fun ev => (c, ev))

/-- `is_repo_initialized` (unified_restore_to_home.py lines 314-330): runs
`snapshots --no-lock --json` through `run_restic` and returns true on any
normal return; on a raised `CalledProcessError` it returns true exactly when
the error text mentions "already initialized" or "repository master key". -/
def is_repo_initialized (snapOp : Nat → AttemptResult) : Bool :=
  match (run_restic false snapOp MAX_RETRIES).1 with
  | RunResult.raised e =>
      subOccurs "already initialized" (errMsg e) ||
      subOccurs "repository master key" (errMsg e)
  | _ => true

/-- Outcomes of the two restic command sequences `force_unlock_repo` may
issue. -/
structure UnlockOracle where
  snapOp : Nat → AttemptResult
  unlockOp : Nat → AttemptResult

/-- `force_unlock_repo` (lines 333-348), with its invocation trace tagged by
command: if `is_repo_initialized` is false the function returns false
without running `unlock`; otherwise it runs `unlock --remove-all` and
returns true on success, true when the raised error text contains
"no locks to remove", and false on any other raised error. -/
def force_unlock_repo (o : UnlockOracle) : Bool × List (Cmd × Event) :=
  if is_repo_initialized o.snapOp then
    match run_restic false o.unlockOp MAX_RETRIES with
    | (RunResult.raised e, t) =>
        (subOccurs "no locks to remove" (errMsg e),
         tagCmd Cmd.snapshots (run_restic false o.snapOp MAX_RETRIES).2 ++
           tagCmd Cmd.unlock t)
    | (_, t) =>
        (true,
         tagCmd Cmd.snapshots (run_restic false o.snapOp MAX_RETRIES).2 ++
           tagCmd Cmd.unlock t)
  else (false, tagCmd Cmd.snapshots (run_restic false o.snapOp MAX_RETRIES).2)

/-- Contract of the external restic engine for `snapshots` (spec section 6,
and restic's documented behavior): the listing succeeds exactly on an
initialized repository. -/
def engineSnapshots (initialized : Bool) : Option ResticError :=
  if initialized then none
  else some ⟨"Fatal: unable to open config file: repository does not exist", ""⟩

/-- Contract of the external restic engine for `init` (spec section 6):
`init` succeeds on an uninitialized repository and initializes it (creating
its `config` file); on an already initialized repository it fails with an
"already initialized" message, leaving the repository initialized. -/
def engineInit (initialized : Bool) : Bool × Option ResticError :=
  if initialized then
    (true, some ⟨"Fatal: create key in repository failed: repository master key and config already initialized", ""⟩)
  else (true, none)

/-- `ensure_repo_initialized` of unified_backup.py (lines 150-170) run
against the engine contract.  The state is whether the repository exists
(for a local repository this is equivalent to its `config` file existing,
which the function checks directly; for a B2 repository it attempts a
`snapshots` command).  The backup script's `run_restic` (lines 136-144) has
no retry logic and propagates `CalledProcessError` unchanged, so the result
is the new state paired with the propagated error, `none` when the call
returns normally.  `isLocal` is `is_local_repo repo` (line 146-148). -/
def ensure_repo_initialized (isLocal : Bool) (initialized : Bool) :
    Bool × Option ResticError :=
  if isLocal then
    if initialized then (initialized, none)
    else
      match engineInit initialized with
      | (st, r) => (st, r)
  else
    match engineSnapshots initialized with
    | none => (initialized, none)
    | some _ =>
      match engineInit initialized with
      | (st, r) => (st, r)

/-- One entry of `backup_tasks` (unified_backup.py lines 194-201). -/
structure BackupTask where
  description : String
  repo : String
  source : String
  excludes : List String
deriving DecidableEq

/-- Outcome of one `backup_repo` (or `cleanup_repo`) call: normal return, or
a `CalledProcessError` carrying the child's return code. -/
inductive TaskOutcome where
  | ok
  | fail (returncode : Int)
deriving DecidableEq

/-- Task loop of unified_backup.py `main` (lines 203-209): each task's
`backup_repo` runs in a `try` whose `except CalledProcessError` handler logs
and calls `sys.exit(e.returncode)`.  Returns the descriptions of the tasks
whose backup was attempted, and the exit code when the loop aborted the
process.  `oracle k` is the outcome of the k-th executed task. -/
def backupLoop : List BackupTask → (Nat → TaskOutcome) → List String × Option Int
  | [], _ => ([], none)
  | t :: rest, oracle =>
    match oracle 0 with
    | TaskOutcome.ok =>
      let r := backupLoop rest (fun i => oracle (i + 1))
      (t.description :: r.1, r.2)
    | TaskOutcome.fail c => ([t.description], some c)

/-- Observable outcome of one run of unified_backup.py `main`. -/
structure BackupRunResult where
  executed : List String
  exitCode : Option Int
  completedNormally : Bool
deriving DecidableEq

/-- `main` of unified_backup.py (lines 185-219): the task loop, then the
retention cleanup (lines 211-217) whose failure also exits the process; the
final "completed successfully" line (line 219) is reached only when nothing
exited. -/
def backupMain (tasks : List BackupTask) (oracle : Nat → TaskOutcome)
    (pruneOutcome : TaskOutcome) : BackupRunResult :=
  match backupLoop tasks oracle with
  | (ex, some c) => ⟨ex, some c, false⟩
  | (ex, none) =>
    match pruneOutcome with
    | TaskOutcome.ok => ⟨ex, none, true⟩
    | TaskOutcome.fail c => ⟨ex, some c, false⟩

/-- `SYSTEM_SOURCE` (unified_backup.py line 43). -/
def SYSTEM_SOURCE : String := "/"

/-- `SYSTEM_EXCLUDES` (unified_backup.py lines 45-84). -/
def SYSTEM_EXCLUDES : List String :=
  ["/proc/*", "/sys/*", "/dev/*", "/run/*", "/tmp/*", "/var/tmp/*",
   "/mnt/*", "/media/*", "/var/cache/*", "/var/log/*", "/home/*/.cache/*",
   "/swapfile", "/lost+found", "*.vmdk", "*.vdi", "*.qcow2", "*.img",
   "*.iso", "*.tmp", "*.swap.img", "/var/lib/docker/*", "/var/lib/lxc/*"]

/-- `backup_tasks` of unified_backup.py `main` (lines 194-201): a single
system-backup task against the hostname-named B2 repository (line 37). -/
def backup_tasks (hostname : String) : List BackupTask :=
  [⟨"Backup System to Backblaze B2 Repository",
    "b2:your_b2_system_bucket:" ++ hostname, SYSTEM_SOURCE, SYSTEM_EXCLUDES⟩]

/-- Concrete snapshot with id prefix `aa`, used in closed instance checks. -/
def snapA : Snapshot := ⟨"aa", "aaaa", "2025-01-01T00:00:00Z"⟩

/-- Concrete snapshot with id prefix `bb` and the same timestamp as
`snapA`. -/
def snapB : Snapshot := ⟨"bb", "bbbb", "2025-01-01T00:00:00Z"⟩

/-- Listing oracle whose invocation succeeds with some JSON text. -/
def listSnapOp : Nat → AttemptResult := fun _ => AttemptResult.ok "[json]"

/-- Listing oracle failing with a permanent "repository does not exist"
error (the engine's response for an uninitialized repository). -/
def uninitSnapOp : Nat → AttemptResult :=
  fun _ => AttemptResult.err
    ⟨"Fatal: unable to open config file: repository does not exist", ""⟩

/-- Unlock oracle whose invocation exits successfully. -/
def okUnlockOp : Nat → AttemptResult := fun _ => AttemptResult.ok ""

/-- Unlock oracle failing with the engine's "no locks to remove" message. -/
def noLocksOp : Nat → AttemptResult :=
  fun _ => AttemptResult.err ⟨"Fatal: no locks to remove", ""⟩

/-- Listing oracle failing every invocation with a transient network error,
so that retries are exhausted. -/
def resetSnapOp : Nat → AttemptResult :=
  fun _ => AttemptResult.err ⟨"read tcp: connection reset by peer", ""⟩

/-- Task oracle for a task that resolves one snapshot and restores it. -/
def oGood : RestoreOracle :=
  ⟨listSnapOp, fun _ => some [snapA], fun _ => AttemptResult.ok "", "1.0"⟩

/-- Task oracle for a task whose snapshot listing exhausts its retries. -/
def oBadListing : RestoreOracle :=
  ⟨resetSnapOp, fun _ => none, fun _ => AttemptResult.ok "", "1.0"⟩

/-- Run oracle with a failing vm task between two succeeding tasks. -/
def oMixedRun : RunOracle := ⟨oGood, oBadListing, oGood⟩

/-- Concrete backup task used in closed instance checks. -/
def taskOne : BackupTask := ⟨"task one", "b2:bucket:host", "/a", []⟩

/-- Second concrete backup task used in closed instance checks. -/
def taskTwo : BackupTask := ⟨"task two", "b2:bucket:host", "/b", []⟩

/-- Unfolding equation of the retry loop at one step. -/
lemma run_restic_loop_eq (isInit : Bool) (op : Nat → AttemptResult)
    (max_retries retries fuel : Nat) :
    run_restic_loop isInit op max_retries retries fuel =
      match op retries with
      | AttemptResult.ok s => (RunResult.ok s, [Event.invoke])
      | AttemptResult.err e =>
        if isInit && subOccurs "already initialized" (errMsg e) then
          (RunResult.okInit, [Event.invoke])
        else if isTransient (errMsg e) = true ∧ retries < max_retries then
          match fuel with
          | 0 => (RunResult.raised e, [Event.invoke])
          | fuel' + 1 =>
            let rest := run_restic_loop isInit op max_retries (retries + 1) fuel'
            (rest.1,
             Event.invoke :: Event.sleep (RETRY_DELAY_BASE * 2 ^ (retries + 1 - 1)) :: rest.2)
        else (RunResult.raised e, [Event.invoke]) := by
  conv_lhs => unfold run_restic_loop

/-- When every invocation fails with a transient, non-"already initialized"
error, the loop entered at state `retries` with `retries + fuel = max_retries`
raises the error of invocation `max_retries` after exactly `fuel + 1`
invocations. -/
lemma run_restic_loop_all_transient (isInit : Bool) (op : Nat → AttemptResult)
    (max_retries : Nat) (es : Nat → ResticError)
    (hop : ∀ k, op k = AttemptResult.err (es k))
    (htr : ∀ k, isTransient (errMsg (es k)) = true)
    (hni : ∀ k, (isInit && subOccurs "already initialized" (errMsg (es k))) = false) :
    ∀ fuel retries, retries + fuel = max_retries →
      (run_restic_loop isInit op max_retries retries fuel).1 =
          RunResult.raised (es max_retries) ∧
        invokeCount (run_restic_loop isInit op max_retries retries fuel).2 = fuel + 1 := by
  intro fuel
  induction fuel with
  | zero =>
    intro retries h
    have hr : retries = max_retries := by omega
    subst hr
    rw [run_restic_loop_eq, hop]
    have hlt : ¬ (isTransient (errMsg (es retries)) = true ∧ retries < retries) := by
      rintro ⟨-, hc⟩
      exact Nat.lt_irrefl _ hc
    simp [hni, hlt, invokeCount]
  | succ fuel ih =>
    intro retries h
    have hlt : retries < max_retries := by omega
    rw [run_restic_loop_eq]
    have hcond : isTransient (errMsg (es retries)) = true ∧ retries < max_retries :=
      ⟨htr retries, hlt⟩
    obtain ⟨ih1, ih2⟩ := ih (retries + 1) (by omega)
    simp only [hop]
    rw [hni retries]
    rw [if_neg (by decide : ¬ ((false : Bool) = true)), if_pos hcond]
    refine ⟨ih1, ?_⟩
    show invokeCount (Event.invoke ::
      Event.sleep (RETRY_DELAY_BASE * 2 ^ (retries + 1 - 1)) ::
      (run_restic_loop isInit op max_retries (retries + 1) fuel).2) = fuel + 1 + 1
    simp only [invokeCount]
    omega

/-- Claim C2: for every retry policy with `maxAttempts = n` and every
operation whose every invocation fails with an error classified transient
(and not the init special case), `run_restic` performs exactly `n + 1`
invocations and then re-raises the error object of the final attempt
unchanged. -/
theorem run_restic_transient_exhaustion (isInit : Bool) (op : Nat → AttemptResult)
    (n : Nat) (es : Nat → ResticError)
    (hop : ∀ k, op k = AttemptResult.err (es k))
    (htr : ∀ k, isTransient (errMsg (es k)) = true)
    (hni : ∀ k, (isInit && subOccurs "already initialized" (errMsg (es k))) = false) :
    (run_restic isInit op n).1 = RunResult.raised (es n) ∧
      invokeCount (run_restic isInit op n).2 = n + 1 :=
  run_restic_loop_all_transient isInit op n es hop htr hni n 0 (by omega)

/-- Witness for C2 at a concrete input: a "timeout" failure on every attempt
with `maxAttempts = 2` is invoked 3 times and the last error is raised. -/
theorem run_restic_transient_exhaustion_check :
    (run_restic false (fun _ => AttemptResult.err ⟨"timeout", ""⟩) 2).1 =
        RunResult.raised ⟨"timeout", ""⟩ ∧
      invokeCount (run_restic false (fun _ => AttemptResult.err ⟨"timeout", ""⟩) 2).2 = 3 :=
  run_restic_transient_exhaustion false _ 2 (fun _ => ⟨"timeout", ""⟩)
    (fun _ => rfl)
    (fun _ => by show isTransient (errMsg ⟨"timeout", ""⟩) = true; decide)
    (fun _ => by
      show (false && subOccurs "already initialized" (errMsg ⟨"timeout", ""⟩)) = false
      decide)

/-- Claim C6: an operation whose failure is not classified transient (and is
not the init "already initialized" special case) is invoked exactly once:
the error is raised immediately, with no retry and no backoff sleep,
regardless of the policy's `max_retries`. -/
theorem run_restic_nontransient_single_attempt (isInit : Bool)
    (op : Nat → AttemptResult) (n : Nat) (e : ResticError)
    (hop : op 0 = AttemptResult.err e)
    (hnt : isTransient (errMsg e) = false)
    (hni : (isInit && subOccurs "already initialized" (errMsg e)) = false) :
    (run_restic isInit op n).1 = RunResult.raised e ∧
      (run_restic isInit op n).2 = [Event.invoke] := by
  unfold run_restic
  rw [run_restic_loop_eq]
  simp only [hop]
  rw [hni]
  rw [if_neg (by decide : ¬ ((false : Bool) = true))]
  have hcneg : ¬ (isTransient (errMsg e) = true ∧ 0 < n) := by
    rintro ⟨h1, -⟩
    rw [hnt] at h1
    exact absurd h1 (by decide)
  rw [if_neg hcneg]
  exact ⟨rfl, rfl⟩

/-- Witness for C6 at a concrete input: a permanent "wrong password" error is
raised after a single invocation even with `max_retries = 3`. -/
theorem run_restic_nontransient_single_attempt_check :
    (run_restic false (fun _ => AttemptResult.err ⟨"Fatal: wrong password", ""⟩) 3).1 =
        RunResult.raised ⟨"Fatal: wrong password", ""⟩ ∧
      (run_restic false (fun _ => AttemptResult.err ⟨"Fatal: wrong password", ""⟩) 3).2 =
        [Event.invoke] :=
  run_restic_nontransient_single_attempt false _ 3 ⟨"Fatal: wrong password", ""⟩ rfl
    (by decide) (by decide)

/-- The trace of the retry loop always has the shape of `traceFrom`: an
invocation, then alternating sleeps and invocations. -/
lemma run_restic_loop_trace_shape (isInit : Bool) (op : Nat → AttemptResult)
    (max_retries : Nat) :
    ∀ fuel retries, ∃ r, r ≤ fuel ∧
      (run_restic_loop isInit op max_retries retries fuel).2 = traceFrom retries r := by
  intro fuel
  induction fuel with
  | zero =>
    intro retries
    refine ⟨0, Nat.le_refl 0, ?_⟩
    rw [run_restic_loop_eq]
    rcases hoe : op retries with s | e
    · simp [traceFrom]
    · by_cases h1 : (isInit && subOccurs "already initialized" (errMsg e)) = true
      · simp [h1, traceFrom]
      · by_cases h2 : isTransient (errMsg e) = true ∧ retries < max_retries
        · simp [h1, h2, traceFrom]
        · simp [h1, h2, traceFrom]
  | succ fuel ih =>
    intro retries
    rw [run_restic_loop_eq]
    rcases hoe : op retries with s | e
    · exact ⟨0, Nat.zero_le _, by simp [traceFrom]⟩
    · by_cases h1 : (isInit && subOccurs "already initialized" (errMsg e)) = true
      · exact ⟨0, Nat.zero_le _, by simp [h1, traceFrom]⟩
      · by_cases h2 : isTransient (errMsg e) = true ∧ retries < max_retries
        · obtain ⟨r, hr, he⟩ := ih (retries + 1)
          refine ⟨r + 1, by omega, ?_⟩
          show (if (isInit && subOccurs "already initialized" (errMsg e)) = true then
              (RunResult.okInit, [Event.invoke])
            else if isTransient (errMsg e) = true ∧ retries < max_retries then
              ((run_restic_loop isInit op max_retries (retries + 1) fuel).1,
               Event.invoke :: Event.sleep (RETRY_DELAY_BASE * 2 ^ (retries + 1 - 1)) ::
                 (run_restic_loop isInit op max_retries (retries + 1) fuel).2)
            else (RunResult.raised e, [Event.invoke])).2 = traceFrom retries (r + 1)
          rw [if_neg h1, if_pos h2]
          show (Event.invoke :: Event.sleep (RETRY_DELAY_BASE * 2 ^ (retries + 1 - 1)) ::
              (run_restic_loop isInit op max_retries (retries + 1) fuel).2) =
            traceFrom retries (r + 1)
          rw [he]
          simp [traceFrom, Nat.add_sub_cancel]
        · exact ⟨0, Nat.zero_le _, by simp [h1, h2, traceFrom]⟩

/-- Sleep durations of `traceFrom k r`: the backoff schedule
`RETRY_DELAY_BASE * 2 ^ (k + j)` for `j < r`. -/
lemma sleepValues_traceFrom :
    ∀ r k, sleepValues (traceFrom k r) =
      (List.range r).map (fun j => RETRY_DELAY_BASE * 2 ^ (k + j)) := by
  intro r
  induction r with
  | zero => intro k; simp [traceFrom, sleepValues]
  | succ r ih =>
    intro k
    have hf : ((fun j => RETRY_DELAY_BASE * 2 ^ (k + j)) ∘ Nat.succ) =
        (fun j => RETRY_DELAY_BASE * 2 ^ (k + 1 + j)) := by
      funext j
      have h : k + (j + 1) = k + 1 + j := by omega
      simp [Function.comp, Nat.succ_eq_add_one, h]
    rw [List.range_succ_eq_map]
    simp only [traceFrom, sleepValues, List.map_cons, List.map_map, hf, Nat.add_zero]
    rw [ih (k + 1)]

/-- Prepending any event to a `traceFrom` trace does not change its last
element (traces are never empty). -/
lemma getLast_cons_traceFrom (a : Event) (k r : Nat) :
    (a :: traceFrom k r).getLast? = (traceFrom k r).getLast? := by
  cases r with
  | zero => rfl
  | succ r =>
    simp only [traceFrom]
    rw [List.getLast?_cons_cons]

/-- The last event of any `traceFrom` trace is an invocation. -/
lemma traceFrom_getLast (r : Nat) : ∀ k, (traceFrom k r).getLast? = some Event.invoke := by
  induction r with
  | zero => intro k; rfl
  | succ r ih =>
    intro k
    simp only [traceFrom]
    rw [List.getLast?_cons_cons, getLast_cons_traceFrom]
    exact ih (k + 1)

/-- Claim C8: every run of `run_restic` performs some number `r ≤ n` of
retries; its trace is an invocation followed by alternating backoff sleeps
and invocations, the j-th sleep (1-indexed) lasting exactly
`RETRY_DELAY_BASE * 2 ^ (j - 1)` seconds (computed fresh per retry, not
accumulated), and the trace always ends with an invocation — so a delay
occurs only between attempts, never after the final one. -/
theorem run_restic_backoff_schedule (isInit : Bool) (op : Nat → AttemptResult)
    (n : Nat) :
    ∃ r, r ≤ n ∧
      (run_restic isInit op n).2 = traceFrom 0 r ∧
      sleepValues (run_restic isInit op n).2 =
        (List.range r).map (fun j => RETRY_DELAY_BASE * 2 ^ j) ∧
      (run_restic isInit op n).2.getLast? = some Event.invoke := by
  obtain ⟨r, hr, he⟩ := run_restic_loop_trace_shape isInit op n n 0
  refine ⟨r, hr, he, ?_, ?_⟩
  · rw [show (run_restic isInit op n).2 = traceFrom 0 r from he, sleepValues_traceFrom]
    simp
  · rw [show (run_restic isInit op n).2 = traceFrom 0 r from he, traceFrom_getLast]

/-- Claim C5: repository initialization is idempotent at the orchestration
layer.  First, running `ensure_repo_initialized` twice in succession (local
or B2, any starting state) never produces an error on the second call: the
first call leaves the repository initialized, so the second call's check
succeeds.  Second, in the restore script's retry executor an `init`
invocation that fails with an error text containing "already initialized" is
converted to success (`return None`), is not retried (exactly one
invocation, no sleep) and propagates no error. -/
theorem ensure_initialized_idempotent (isLocal initialized : Bool)
    (op : Nat → AttemptResult) (n : Nat) (e : ResticError)
    (hop : op 0 = AttemptResult.err e)
    (hmsg : subOccurs "already initialized" (errMsg e) = true) :
    (ensure_repo_initialized isLocal
        (ensure_repo_initialized isLocal initialized).1).2 = none ∧
      (run_restic true op n).1 = RunResult.okInit ∧
      (run_restic true op n).2 = [Event.invoke] := by
  have hrun : run_restic true op n = (RunResult.okInit, [Event.invoke]) := by
    unfold run_restic
    rw [run_restic_loop_eq]
    simp [hop, hmsg]
  refine ⟨?_, by rw [hrun], by rw [hrun]⟩
  cases isLocal <;> cases initialized <;> rfl

/-- Witness for C5 at a concrete input: a B2 repository starting
uninitialized, and an init invocation failing with an "already initialized"
message. -/
theorem ensure_initialized_idempotent_check :
    (ensure_repo_initialized false (ensure_repo_initialized false false).1).2 = none ∧
      (run_restic true (fun _ => AttemptResult.err
        ⟨"Fatal: repository is already initialized", ""⟩) 3).1 = RunResult.okInit ∧
      (run_restic true (fun _ => AttemptResult.err
        ⟨"Fatal: repository is already initialized", ""⟩) 3).2 = [Event.invoke] :=
  ensure_initialized_idempotent false false _ 3
    ⟨"Fatal: repository is already initialized", ""⟩ rfl (by decide)

/-- Nothing is lexicographically below the empty list. -/
lemma charsLt_nil_right : ∀ c : List Char, charsLt c [] = false
  | [] => rfl
  | _ :: _ => rfl

/-- Irreflexivity of the lexicographic comparison. -/
lemma charsLt_irrefl : ∀ a : List Char, charsLt a a = false := by
  intro a
  induction a with
  | nil => rfl
  | cons x xs ih =>
    simp only [charsLt]
    rw [if_neg (by omega), if_neg (by omega)]
    exact ih

/-- Asymmetry of the lexicographic comparison. -/
lemma charsLt_asymm : ∀ a b : List Char, charsLt a b = true → charsLt b a = false := by
  intro a
  induction a with
  | nil =>
    intro b h
    cases b with
    | nil => simp [charsLt] at h
    | cons y ys => rfl
  | cons x xs ih =>
    intro b h
    cases b with
    | nil => simp [charsLt] at h
    | cons y ys =>
      simp only [charsLt] at h ⊢
      by_cases h1 : x.toNat < y.toNat
      · rw [if_neg (by omega), if_pos h1]
      · rw [if_neg h1] at h
        by_cases h2 : y.toNat < x.toNat
        · rw [if_pos h2] at h
          simp at h
        · rw [if_neg h2] at h
          rw [if_neg h2, if_neg h1]
          exact ih ys h

/-- Transitivity of "not later than" for the lexicographic comparison. -/
lemma charsLt_le_trans : ∀ a b c : List Char,
    charsLt b a = false → charsLt c b = false → charsLt c a = false := by
  intro a
  induction a with
  | nil => intro b c _ _; exact charsLt_nil_right c
  | cons x xs ih =>
    intro b c h1 h2
    cases b with
    | nil => simp [charsLt] at h1
    | cons y ys =>
      cases c with
      | nil => simp [charsLt] at h2
      | cons z zs =>
        simp only [charsLt] at h1 h2 ⊢
        by_cases hyx : y.toNat < x.toNat
        · rw [if_pos hyx] at h1
          simp at h1
        · rw [if_neg hyx] at h1
          by_cases hzy : z.toNat < y.toNat
          · rw [if_pos hzy] at h2
            simp at h2
          · rw [if_neg hzy] at h2
            rw [if_neg (by omega : ¬ z.toNat < x.toNat)]
            by_cases hxz : x.toNat < z.toNat
            · rw [if_pos hxz]
            · rw [if_neg hxz]
              by_cases hxy : x.toNat < y.toNat
              · exact ((by omega : False)).elim
              · rw [if_neg hxy] at h1
                by_cases hyz : y.toNat < z.toNat
                · exact ((by omega : False)).elim
                · rw [if_neg hyz] at h2
                  exact ih ys zs h1 h2

/-- Antisymmetry of "not later than" for the lexicographic comparison. -/
lemma charsLt_antisymm : ∀ a b : List Char,
    charsLt a b = false → charsLt b a = false → a = b := by
  intro a
  induction a with
  | nil =>
    intro b h1 _
    cases b with
    | nil => rfl
    | cons y ys => simp [charsLt] at h1
  | cons x xs ih =>
    intro b h1 h2
    cases b with
    | nil => simp [charsLt] at h2
    | cons y ys =>
      simp only [charsLt] at h1 h2
      by_cases hxy : x.toNat < y.toNat
      · rw [if_pos hxy] at h1
        simp at h1
      · rw [if_neg hxy] at h1
        by_cases hyx : y.toNat < x.toNat
        · rw [if_pos hyx] at h2
          simp at h2
        · rw [if_neg hyx] at h1
          rw [if_neg hyx, if_neg hxy] at h2
          have hx : x = y :=
            Char.eq_of_val_eq (UInt32.ext (show x.toNat = y.toNat by omega))
          rw [hx, ih ys h1 h2]

/-- Irreflexivity of `strLt`. -/
lemma strLt_irrefl (a : String) : strLt a a = false := charsLt_irrefl a.data

/-- Asymmetry of `strLt`. -/
lemma strLt_asymm {a b : String} (h : strLt a b = true) : strLt b a = false :=
  charsLt_asymm a.data b.data h

/-- Transitivity of "not later than" for `strLt`. -/
lemma strLt_le_trans {a b c : String} (h1 : strLt b a = false)
    (h2 : strLt c b = false) : strLt c a = false :=
  charsLt_le_trans a.data b.data c.data h1 h2

/-- Antisymmetry of "not later than" for `strLt`. -/
lemma strLt_antisymm {a b : String} (h1 : strLt a b = false)
    (h2 : strLt b a = false) : a = b := by
  cases a with
  | mk da =>
    cases b with
    | mk db =>
      have h := charsLt_antisymm da db h1 h2
      rw [h]

/-- The snapshot chosen by `selectLatest` has a maximal time, and it is the
first element of the list whose time attains that maximum — Python's stable
descending sort puts exactly this element first. -/
lemma selectLatest_max_first (s : Snapshot) (rest : List Snapshot) :
    (∀ t ∈ s :: rest, strLt (selectLatest s rest).time t.time = false) ∧
      (s :: rest).find? (fun t => t.time == (selectLatest s rest).time) =
        some (selectLatest s rest) := by
  induction rest generalizing s with
  | nil =>
    refine ⟨?_, ?_⟩
    · intro t ht
      rw [List.mem_singleton] at ht
      subst ht
      exact strLt_irrefl _
    · simp [selectLatest, List.find?]
  | cons t rest ih =>
    have hsel : selectLatest s (t :: rest) =
        selectLatest (if strLt s.time t.time then t else s) rest := by
      simp [selectLatest, List.foldl_cons]
    by_cases hst : strLt s.time t.time = true
    · have hsel2 : selectLatest s (t :: rest) = selectLatest t rest := by
        rw [hsel, if_pos hst]
      obtain ⟨ihmax, ihfind⟩ := ih t
      rw [hsel2]
      have hms : strLt (selectLatest t rest).time s.time = false :=
        strLt_le_trans (strLt_asymm hst) (ihmax t (List.mem_cons_self t rest))
      refine ⟨?_, ?_⟩
      · intro u hu
        rcases List.mem_cons.mp hu with hu | hu
        · subst hu
          exact hms
        · exact ihmax u hu
      · have hps : (s.time == (selectLatest t rest).time) = false := by
          rw [beq_eq_false_iff_ne]
          intro heq
          have hmt := ihmax t (List.mem_cons_self t rest)
          rw [← heq, hst] at hmt
          exact Bool.noConfusion hmt
        simp only [List.find?, hps]
        exact ihfind
    · have hstf : strLt s.time t.time = false := by
        cases hv : strLt s.time t.time
        · rfl
        · exact absurd hv hst
      have hsel2 : selectLatest s (t :: rest) = selectLatest s rest := by
        rw [hsel, if_neg hst]
      obtain ⟨ihmax, ihfind⟩ := ih s
      rw [hsel2]
      have hmt : strLt (selectLatest s rest).time t.time = false :=
        strLt_le_trans hstf (ihmax s (List.mem_cons_self s rest))
      refine ⟨?_, ?_⟩
      · intro u hu
        rcases List.mem_cons.mp hu with hu | hu
        · subst hu
          exact ihmax _ (List.mem_cons_self _ _)
        · rcases List.mem_cons.mp hu with hu | hu
          · subst hu
            exact hmt
          · exact ihmax u (List.mem_cons_of_mem s hu)
      · by_cases hps : (s.time == (selectLatest s rest).time) = true
        · simp only [List.find?, hps] at ihfind ⊢
          exact ihfind
        · have hps2 : (s.time == (selectLatest s rest).time) = false := by
            cases hv : (s.time == (selectLatest s rest).time)
            · rfl
            · exact absurd hv hps
          have hpt : (t.time == (selectLatest s rest).time) = false := by
            rw [beq_eq_false_iff_ne]
            intro heq
            have hsm : s.time = (selectLatest s rest).time := by
              refine strLt_antisymm ?_ (ihmax s (List.mem_cons_self s rest))
              rw [← heq]
              exact hstf
            rw [beq_eq_false_iff_ne] at hps2
            exact hps2 hsm
          simp only [List.find?, hps2] at ihfind
          simp only [List.find?, hps2, hpt]
          exact ihfind

/-- Counterexample to C4's tie-break clause: two snapshots share the maximal
timestamp; listing the same snapshot set in its two possible orders resolves
to two different IDs (`"bb"` resp. `"aa"`), so ties are broken by listing
position, not by id lexical order, and repeated resolution over unchanged
snapshot data is not stable across listing orders. -/
theorem latest_snapshot_tiebreak_listing_order :
    get_latest_snapshot_id listSnapOp (fun _ => some [snapB, snapA]) = "bb" ∧
      get_latest_snapshot_id listSnapOp (fun _ => some [snapA, snapB]) = "aa" := by
  decide

/-- Amended claim C4: the resolver returns the empty ID for an empty
snapshot list (not an error), and otherwise the short ID (falling back to
the long ID) of a snapshot whose timestamp is maximal — namely the
first-listed snapshot attaining the maximal timestamp, so ties are broken
deterministically by listing position (Python's stable sort), and the
result coincides across listing orders only when the first-listed maximal
snapshot does. -/
theorem latest_snapshot_max_timestamp (snapOp : Nat → AttemptResult)
    (parse : String → Option (List Snapshot)) (out : String)
    (s : Snapshot) (rest : List Snapshot)
    (hok : (run_restic false snapOp MAX_RETRIES).1 = RunResult.ok out)
    (hout : ¬ out = "")
    (hparse : parse out = some (s :: rest)) :
    (∀ parse2 : String → Option (List Snapshot), parse2 out = some [] →
        get_latest_snapshot_id snapOp parse2 = "") ∧
      get_latest_snapshot_id snapOp parse =
        snapshotDisplayId (selectLatest s rest) ∧
      (∀ t ∈ s :: rest, strLt (selectLatest s rest).time t.time = false) ∧
      (s :: rest).find? (fun t => t.time == (selectLatest s rest).time) =
        some (selectLatest s rest) := by
  refine ⟨?_, ?_, (selectLatest_max_first s rest).1, (selectLatest_max_first s rest).2⟩
  · intro parse2 hp2
    unfold get_latest_snapshot_id
    simp only [hok]
    rw [if_neg hout]
    simp [hp2]
  · unfold get_latest_snapshot_id
    simp only [hok]
    rw [if_neg hout]
    simp [hparse]

/-- Witness for the amended C4 at a concrete input: the tied pair resolves
to the first-listed snapshot's short id, whose timestamp is maximal. -/
theorem latest_snapshot_max_timestamp_check :
    get_latest_snapshot_id listSnapOp (fun _ => some [snapB, snapA]) = "bb" ∧
      (∀ t ∈ [snapB, snapA], strLt (selectLatest snapB [snapA]).time t.time = false) := by
  have h := latest_snapshot_max_timestamp listSnapOp (fun _ => some [snapB, snapA])
    "[json]" snapB [snapA] (by decide) (by decide) rfl
  exact ⟨h.2.1.trans (by decide), h.2.2.1⟩

/-- Claim C7: `force_unlock_repo` on a repository that `is_repo_initialized`
reports false for returns false and performs no unlock invocation; on an
initialized repository it returns true both when the unlock command exits
successfully and when it fails with an error text containing
"no locks to remove". -/
theorem force_unlock_requires_initialized (o : UnlockOracle) :
    (is_repo_initialized o.snapOp = false →
      (force_unlock_repo o).1 = false ∧
        (Cmd.unlock, Event.invoke) ∉ (force_unlock_repo o).2) ∧
    (is_repo_initialized o.snapOp = true →
      (∀ s, (run_restic false o.unlockOp MAX_RETRIES).1 = RunResult.ok s →
          (force_unlock_repo o).1 = true) ∧
      (∀ e, (run_restic false o.unlockOp MAX_RETRIES).1 = RunResult.raised e →
          subOccurs "no locks to remove" (errMsg e) = true →
          (force_unlock_repo o).1 = true)) := by
  constructor
  · intro h
    unfold force_unlock_repo
    rw [h]
    simp [tagCmd]
  · intro h
    constructor
    · intro s hs
      rcases hru : run_restic false o.unlockOp MAX_RETRIES with ⟨res, t⟩
      rw [hru] at hs
      simp only at hs
      subst hs
      simp [force_unlock_repo, h, hru]
    · intro e hev hmsg
      rcases hru : run_restic false o.unlockOp MAX_RETRIES with ⟨res, t⟩
      rw [hru] at hev
      simp only at hev
      subst hev
      simp [force_unlock_repo, h, hru, hmsg]

/-- Witness for C7 at concrete inputs: an uninitialized repository yields
false with no unlock invocation; an initialized repository yields true both
on a clean unlock exit and on a "no locks to remove" failure. -/
theorem force_unlock_requires_initialized_check :
    ((force_unlock_repo ⟨uninitSnapOp, okUnlockOp⟩).1 = false ∧
      (Cmd.unlock, Event.invoke) ∉ (force_unlock_repo ⟨uninitSnapOp, okUnlockOp⟩).2) ∧
    (force_unlock_repo ⟨listSnapOp, okUnlockOp⟩).1 = true ∧
    (force_unlock_repo ⟨listSnapOp, noLocksOp⟩).1 = true :=
  ⟨(force_unlock_requires_initialized ⟨uninitSnapOp, okUnlockOp⟩).1 (by decide),
   ((force_unlock_requires_initialized ⟨listSnapOp, okUnlockOp⟩).2 (by decide)).1
     "" (by decide),
   ((force_unlock_requires_initialized ⟨listSnapOp, noLocksOp⟩).2 (by decide)).2
     ⟨"Fatal: no locks to remove", ""⟩ (by decide) (by decide)⟩

/-- Every `restore_repo` call writes exactly in_progress followed by one
terminal state. -/
lemma restore_repo_writes (repo : String) (o : RestoreOracle) :
    ∃ m1 fs m2, (restore_repo repo o).2 = [⟨TState.in_progress, m1⟩, ⟨fs, m2⟩] ∧
      (fs = TState.success ∨ fs = TState.failed) := by
  unfold restore_repo
  by_cases h : get_latest_snapshot_id o.snapOp o.parseJson = ""
  · rw [if_pos h]
    exact ⟨_, TState.failed, _, rfl, Or.inr rfl⟩
  · rw [if_neg h]
    rcases hr : (run_restic false o.restoreOp MAX_RETRIES).1 with s | _ | e
    · simp only [hr]
      exact ⟨_, TState.success, _, rfl, Or.inl rfl⟩
    · simp only [hr]
      exact ⟨_, TState.success, _, rfl, Or.inl rfl⟩
    · simp only [hr]
      exact ⟨_, TState.failed, _, rfl, Or.inr rfl⟩

/-- Claim C9: within one run, each task's status moves strictly forward
along pending → in_progress → {success, failed}: the sequence of states a
task's `RESTORE_STATUS` entry takes (starting from its initial pending
value) is strictly increasing in `stateRank`, and it ends in a terminal
state (success or failed), after which the orchestrator writes nothing more
for that task. -/
theorem restore_status_monotone (repo : String) (o : RestoreOracle) :
    List.Chain (fun a b => stateRank a < stateRank b) TState.pending
      ((restore_repo repo o).2.map TaskStatus.status) ∧
    (taskFinal repo o = TState.success ∨ taskFinal repo o = TState.failed) := by
  obtain ⟨m1, fs, m2, hw, hfs⟩ := restore_repo_writes repo o
  refine ⟨?_, ?_⟩
  · rw [hw]
    rcases hfs with h | h <;> subst h <;>
      simp [List.chain_cons, stateRank]
  · unfold taskFinal
    rw [hw]
    simpa [List.getLastD] using hfs

/-- Claim C10: every failure of the snapshot-listing step collapses to the
empty string — a raised error (e.g. transient failures exhausting the
retries), unparseable JSON, and a genuinely empty repository all make
`get_latest_snapshot_id` return `""`, so the caller cannot distinguish a
listing failure from an empty repository; and `restore_repo` then marks the
task failed with the "No snapshots found" message in every such case, even
when the repository actually contains snapshots. -/
theorem snapshot_listing_failure_collapses_to_empty (repo : String)
    (o : RestoreOracle) :
    (∀ eRaise, (run_restic false o.snapOp MAX_RETRIES).1 = RunResult.raised eRaise →
        get_latest_snapshot_id o.snapOp o.parseJson = "") ∧
      (∀ out, (run_restic false o.snapOp MAX_RETRIES).1 = RunResult.ok out →
        o.parseJson out = none → get_latest_snapshot_id o.snapOp o.parseJson = "") ∧
      (∀ out, (run_restic false o.snapOp MAX_RETRIES).1 = RunResult.ok out →
        o.parseJson out = some [] → get_latest_snapshot_id o.snapOp o.parseJson = "") ∧
      (get_latest_snapshot_id o.snapOp o.parseJson = "" →
        (restore_repo repo o).1 = false ∧
          (restore_repo repo o).2 =
            [⟨TState.in_progress, "Restore in progress..."⟩,
             ⟨TState.failed,
              "No snapshots found for repository \x27" ++ repo ++ "\x27."⟩]) := by
  refine ⟨?_, ?_, ?_, ?_⟩
  · intro eRaise h
    unfold get_latest_snapshot_id
    simp only [h]
  · intro out h hp
    unfold get_latest_snapshot_id
    simp only [h]
    by_cases hout : out = ""
    · rw [if_pos hout]
    · rw [if_neg hout, hp]
  · intro out h hp
    unfold get_latest_snapshot_id
    simp only [h]
    by_cases hout : out = ""
    · rw [if_pos hout]
    · rw [if_neg hout, hp]
  · intro hempty
    unfold restore_repo
    rw [if_pos hempty]
    exact ⟨rfl, rfl⟩

/-- Witness for C10 at a concrete input: a listing that fails every attempt
with "connection reset by peer" (exhausting the retries) yields the empty
ID, and the task is marked failed with the "No snapshots found" message. -/
theorem snapshot_listing_failure_collapses_to_empty_check :
    get_latest_snapshot_id oBadListing.snapOp oBadListing.parseJson = "" ∧
      (restore_repo "repo" oBadListing).1 = false ∧
      (restore_repo "repo" oBadListing).2 =
        [⟨TState.in_progress, "Restore in progress..."⟩,
         ⟨TState.failed, "No snapshots found for repository \x27repo\x27."⟩] := by
  have h := snapshot_listing_failure_collapses_to_empty "repo" oBadListing
  have h1 : get_latest_snapshot_id oBadListing.snapOp oBadListing.parseJson = "" :=
    h.1 ⟨"read tcp: connection reset by peer", ""⟩ (by decide)
  refine ⟨h1, (h.2.2.2 h1).1, ((h.2.2.2 h1).2).trans (by decide)⟩

/-- The final states of a run are the three tasks' final states, in
declaration order. -/
lemma finalStates_eq (hostname : String) (o : RunOracle) :
    finalStates hostname o =
      [taskFinal (B2_REPO_SYSTEM hostname) o.system,
       taskFinal (B2_REPO_VM hostname) o.vm,
       taskFinal (B2_REPO_PLEX hostname) o.plex] := rfl

/-- Each task of a completed run ends in a terminal state. -/
lemma taskFinal_cases (repo : String) (o : RestoreOracle) :
    taskFinal repo o = TState.success ∨ taskFinal repo o = TState.failed := by
  obtain ⟨m1, fs, m2, hw, hfs⟩ := restore_repo_writes repo o
  unfold taskFinal
  rw [hw]
  simpa [List.getLastD] using hfs

/-- Claim C3: for every completed run, the final classification is
`SUCCESS` iff all tasks reached success, `PARTIAL SUCCESS` iff at least one
succeeded and at least one failed, and `FAILED` iff none succeeded. -/
theorem final_classification_correct (hostname : String) (o : RunOracle) :
    (summary hostname o = "SUCCESS" ↔
        ∀ s ∈ finalStates hostname o, s = TState.success) ∧
      (summary hostname o = "PARTIAL SUCCESS" ↔
        ((∃ s ∈ finalStates hostname o, s = TState.success) ∧
          (∃ s ∈ finalStates hostname o, s = TState.failed))) ∧
      (summary hostname o = "FAILED" ↔
        ¬ ∃ s ∈ finalStates hostname o, s = TState.success) := by
  have h1 := taskFinal_cases (B2_REPO_SYSTEM hostname) o.system
  have h2 := taskFinal_cases (B2_REPO_VM hostname) o.vm
  have h3 := taskFinal_cases (B2_REPO_PLEX hostname) o.plex
  unfold summary
  rw [finalStates_eq]
  rcases h1 with h1 | h1 <;> rcases h2 with h2 | h2 <;> rcases h3 with h3 | h3 <;>
    rw [h1, h2, h3] <;> decide

/-- Witness for C3 at a concrete input: a run with two succeeding tasks and
one failing task is classified `PARTIAL SUCCESS`. -/
theorem final_classification_correct_check :
    summary "host" oMixedRun = "PARTIAL SUCCESS" :=
  (final_classification_correct "host" oMixedRun).2.1.mpr (by decide)

/-- Counterexample to C1: in the backup orchestrator
(unified_backup.py lines 203-209) a task failure aborts the run — with two
tasks of which the first fails, only the first executes, the process exits
with the failing command's return code, the second task never runs, and the
run never reaches its completion step; the same abort happens on the
script's actual single-task list. -/
theorem backup_first_failure_aborts_run :
    backupMain [taskOne, taskTwo] (fun _ => TaskOutcome.fail 1) TaskOutcome.ok =
        ⟨["task one"], some 1, false⟩ ∧
      backupMain (backup_tasks "host") (fun _ => TaskOutcome.fail 2) TaskOutcome.ok =
        ⟨["Backup System to Backblaze B2 Repository"], some 2, false⟩ :=
  ⟨rfl, rfl⟩

/-- Amended claim C1: in the restore orchestrator
(unified_restore_to_home.py), per-task failures are recoverable at the run
level — every run executes all three tasks in order and produces a final
report covering all of them, each in a terminal state, even when every task
fails; the backup orchestrator (unified_backup.py) instead aborts the run at
the first failed task, exiting with that task's return code. -/
theorem restore_run_covers_all_tasks (hostname : String) (o : RunOracle) :
    (runRestore hostname o).map Prod.fst = ["system", "vm", "plex"] ∧
      (finalReport hostname o).length = 3 ∧
      ((finalStates hostname o).all
        (fun s => s == TState.success || s == TState.failed)) = true := by
  refine ⟨rfl, rfl, ?_⟩
  have h1 := taskFinal_cases (B2_REPO_SYSTEM hostname) o.system
  have h2 := taskFinal_cases (B2_REPO_VM hostname) o.vm
  have h3 := taskFinal_cases (B2_REPO_PLEX hostname) o.plex
  rw [finalStates_eq]
  rcases h1 with h1 | h1 <;> rcases h2 with h2 | h2 <;> rcases h3 with h3 | h3 <;>
    rw [h1, h2, h3] <;> decide

end Orchestration
